import Mathlib

/-!
Verification of the encryption worker of gears.slurm.it.

Shallow embedding of:
- the message router (`onmessage` in the worker source, the 3-provider variant),
- the provider registry (`setProvider`, the module-level `provider` /
  `currentProviderType` pair, held here in `WorkerState`),
- the three provider variants: `JsAesCryptWorkerProvider` (legacy),
  `WebCryptoWorkerProvider` (AEAD), `AgeWorkerProvider` (third-party),
- the error-normalization tables of each provider.

The underlying cryptographic engines (the jsAesCrypt codec, the platform
PBKDF2/AES-GCM primitives, rage-wasm) are external collaborators; they are
modelled as parameters (`AesCryptBackend`, `CryptoEngine`, `RageBackend`),
and the theorems take their contracts (round-trip, tag length, failure
signalling) as explicit hypotheses, discharged on concrete sample backends
in the witnesses.
-/

/-- Byte payloads: `Uint8Array` / `Blob` contents as a list of byte values. -/
abbrev Bytes := List Nat

/-! ## Character-list utilities: JS `String.prototype.includes`, `split`, `join` -/

/-- Test `isPrefixL pat s` : `pat` is a prefix of `s` (Boolean, structural). -/
def isPrefixL : List Char → List Char → Bool
  | [], _ => true
  | _ :: _, [] => false
  | a :: as, b :: bs => a == b && isPrefixL as bs

/-- Test `hasInfix pat s` : `pat` occurs contiguously inside `s`. -/
def hasInfix (pat : List Char) : List Char → Bool
  | [] => isPrefixL pat []
  | c :: rest => isPrefixL pat (c :: rest) || hasInfix pat rest

/-- JS `s.includes(pat)` for strings. -/
def strIncludes (s pat : String) : Bool :=
  hasInfix pat.data s.data

/-- JS `s.toLowerCase().includes(pat)` (with `pat` already lowercase). -/
def lowerIncludes (s pat : String) : Bool :=
  hasInfix pat.data (s.data.map Char.toLower)

/-- JS `s.split('.')` on the character list: splits at every dot,
keeping empty pieces, and yields `[[]]` on the empty string. -/
def splitDots : List Char → List (List Char)
  | [] => [[]]
  | c :: rest =>
    let r := splitDots rest
    if c = '.' then [] :: r
    else
      match r with
      | [] => [[c]]
      | h :: t => (c :: h) :: t

/-- JS `parts.join('.')` on character lists. -/
def joinDots : List (List Char) → List Char
  | [] => []
  | [x] => x
  | x :: xs => x ++ '.' :: joinDots xs

/-- The router's decrypt-side output-filename derivation:
`fileName.split('.').slice(0, -1).join('.')`. -/
def stripLastExt (s : String) : String :=
  String.mk (joinDots (splitDots s.data).dropLast)

/-! ## JS value universe for the loosely-typed envelope fields -/

/-- The JS values the router inspects: strings, numbers, booleans,
`null`/`undefined`, `Blob`s (with their byte content) and arrays. -/
inductive JSVal where
  | str (s : String)
  | num (n : Int)
  | bool (b : Bool)
  | null
  | undef
  | blob (content : Bytes)
  | arr (xs : List JSVal)

/-- JS truthiness of a value. -/
def JSVal.truthy : JSVal → Bool
  | .str s => s != ""
  | .num n => n != 0
  | .bool b => b
  | .null => false
  | .undef => false
  | .blob _ => true
  | .arr _ => true

/-- JS array indexing: out-of-range reads give `undefined`. -/
def jsIndex (xs : List JSVal) (i : Nat) : JSVal :=
  (xs.get? i).getD JSVal.undef

/-! ## Raw errors and the normalized error record -/

/-- The raw error values `normalizeError` receives: a plain string, an
`Error` object (whose `message` may be absent/empty), or `null`/`undefined`. -/
inductive RawErr where
  | str (s : String)
  | err (msg : Option String)
  | null
  | undef

/-- The extraction of the diagnostic text: a string error is taken as-is;
otherwise the optional Error message, a missing or empty message becoming
the fallback text. -/
def jsErrMessage : RawErr → String
  | .str s => s
  | .err none => "Unknown error"
  | .err (some m) => if m = "" then "Unknown error" else m
  | .null => "Unknown error"
  | .undef => "Unknown error"

/-- The spec's `ErrorCode` taxonomy (§7). -/
inductive ErrorCode where
  | WRONG_PASSWORD
  | PASSWORD_REQUIRED
  | PASSWORD_TOO_LONG
  | INVALID_FORMAT
  | CORRUPTED_DATA
  | ENCRYPTION_FAILED
  | DECRYPTION_FAILED
  | BACKEND_UNAVAILABLE
  | UNKNOWN_ERROR
  deriving DecidableEq, Repr

/-- The record with code, message and userMessage as returned by every `normalizeError`. -/
structure NormError where
  code : ErrorCode
  message : String
  userMessage : String
  deriving DecidableEq, Repr

/-- The message of `_enhanceError(error, operation)`: every provider wraps a raw
failure message as `operation + " failed: " + message`. -/
def enhance (operation msg : String) : String :=
  operation ++ " failed: " ++ msg

/-- Map over the error of an `Except` (the `try/catch` + rethrow pattern). -/
def mapErr (f : String → String) : Except String Bytes → Except String Bytes
  | .ok v => .ok v
  | .error e => .error (f e)

/-- The password-too-long display template with the provider's bound. -/
def tooLongMsg (n : Nat) : String :=
  "❌ Password too long (max " ++ toString n ++ " characters)"

/-! ## Legacy provider: `JsAesCryptWorkerProvider` -/

/-- The optional `aesCrypt.info` record (`version`, `maxPassLen`). -/
structure AesInfo where
  version : String
  maxPassLen : Nat
  deriving DecidableEq, Repr

/-- The external jsAesCrypt codec: opaque `encrypt`/`decrypt` entry points
(raising = `Except.error` with the diagnostic message) plus optional info. -/
structure AesCryptBackend where
  encryptB : Bytes → String → Except String Bytes
  decryptB : Bytes → String → Except String Bytes
  info : Option AesInfo

/-- Evaluation of `this.aesCrypt?.info?.maxPassLen || 1024` (a backend bound of `0` is
falsy in JS and also falls back to 1024). -/
def JsAes.maxPassLen (b : AesCryptBackend) : Nat :=
  match b.info with
  | some i => if i.maxPassLen = 0 then 1024 else i.maxPassLen
  | none => 1024

/-- Embedding of `JsAesCryptWorkerProvider.encrypt`: delegate to the codec, wrapping any
failure via `_enhanceError` under the encrypt operation. (The null guard is
untaken: the worker always constructs this provider with the loaded codec.) -/
def JsAes.encrypt (b : AesCryptBackend) (data : Bytes) (password : String) :
    Except String Bytes :=
  mapErr (enhance "encrypt") (b.encryptB data password)

/-- Embedding of `JsAesCryptWorkerProvider.decrypt`. -/
def JsAes.decrypt (b : AesCryptBackend) (data : Bytes) (password : String) :
    Except String Bytes :=
  mapErr (enhance "decrypt") (b.decryptB data password)

/-- Embedding of `JsAesCryptWorkerProvider.normalizeError`: keyword table over the
lowercased diagnostic text. -/
def JsAes.normalizeError (b : AesCryptBackend) (error : RawErr) : NormError :=
  let errorMessage := jsErrMessage error
  if lowerIncludes errorMessage "wrong password" || lowerIncludes errorMessage "bad hmac" then
    { code := .WRONG_PASSWORD, message := errorMessage,
      userMessage := "❌ Incorrect password. Please check your password and try again." }
  else if lowerIncludes errorMessage "password is too long" then
    { code := .PASSWORD_TOO_LONG, message := errorMessage,
      userMessage := tooLongMsg (JsAes.maxPassLen b) }
  else if lowerIncludes errorMessage "corrupted" || lowerIncludes errorMessage "tampered" then
    { code := .CORRUPTED_DATA, message := errorMessage,
      userMessage := "❌ File appears to be corrupted or tampered with" }
  else if lowerIncludes errorMessage "not an aes crypt" || lowerIncludes errorMessage "invalid format" then
    { code := .INVALID_FORMAT, message := errorMessage,
      userMessage := "❌ This file is not a valid AES encrypted file" }
  else
    { code := .UNKNOWN_ERROR, message := errorMessage,
      userMessage := "❌ An unexpected error occurred" }

/-- The disjunction of the legacy keyword guards ("recognized" raw errors). -/
def JsAes.recognized (msg : String) : Bool :=
  lowerIncludes msg "wrong password" || lowerIncludes msg "bad hmac" ||
  lowerIncludes msg "password is too long" ||
  lowerIncludes msg "corrupted" || lowerIncludes msg "tampered" ||
  lowerIncludes msg "not an aes crypt" || lowerIncludes msg "invalid format"

/-! ## AEAD provider: `WebCryptoWorkerProvider` -/

/-- Outcome of `crypto.subtle.decrypt` for AES-GCM: success, the
`OperationError` raised on authentication-tag mismatch, or another error. -/
inductive GcmFailure where
  | operationError
  | other (msg : String)
  deriving DecidableEq, Repr

/-- The platform SubtleCrypto engine: PBKDF2 key derivation, AES-GCM
encrypt/decrypt, and `crypto.getRandomValues(new Uint8Array(n))`.
`rand_len` records the typed-array guarantee that a fresh `Uint8Array(n)`
has exactly `n` entries. -/
structure CryptoEngine where
  deriveKey : String → Bytes → Bytes
  gcmEncrypt : Bytes → Bytes → Bytes → Bytes
  gcmDecrypt : Bytes → Bytes → Bytes → Except GcmFailure Bytes
  randomBytes : Nat → Bytes
  rand_len : ∀ n, (randomBytes n).length = n

/-- Embedding of `WebCryptoWorkerProvider.validatePassword` (maxPasswordLength = 1024). -/
def WebCrypto.validatePassword (password : String) : Except String Unit :=
  if password = "" then .error "Password is required"
  else if password.length > 1024 then .error "Password too long (max 1024 characters)"
  else .ok ()

/-- Embedding of `WebCryptoWorkerProvider.encrypt`: validate the password, draw a
16-byte salt and a 12-byte IV, derive the key, run AES-GCM, and emit
`salt ‖ iv ‖ ciphertext+tag`; any failure is wrapped as `encrypt failed:`. -/
def WebCrypto.encrypt (E : CryptoEngine) (data : Bytes) (password : String) :
    Except String Bytes :=
  match WebCrypto.validatePassword password with
  | .error e => .error (enhance "encrypt" e)
  | .ok _ =>
    let salt := E.randomBytes 16
    let iv := E.randomBytes 12
    let key := E.deriveKey password salt
    let encryptedArray := E.gcmEncrypt key iv data
    .ok (salt ++ iv ++ encryptedArray)

/-- Embedding of `WebCryptoWorkerProvider.decrypt`, instrumented with the number of
`_deriveKey` (PBKDF2) invocations performed. Rejects inputs shorter than
`saltLength + ivLength = 28`, splits at the fixed offsets 16 and 28,
re-derives the key, and maps an AES-GCM `OperationError` to the distinct
`Wrong password or corrupted data` message; every failure is wrapped as
`decrypt failed:`. -/
def WebCrypto.decryptInstr (E : CryptoEngine) (data : Bytes) (password : String) :
    Except String Bytes × Nat :=
  if data.length < 28 then
    (.error (enhance "decrypt" "Invalid file format: file too short"), 0)
  else
    let salt := data.take 16
    let iv := (data.drop 16).take 12
    let encryptedData := data.drop 28
    let key := E.deriveKey password salt
    match E.gcmDecrypt key iv encryptedData with
    | .ok decrypted => (.ok decrypted, 1)
    | .error .operationError =>
        (.error (enhance "decrypt" "Wrong password or corrupted data"), 1)
    | .error (.other m) => (.error (enhance "decrypt" m), 1)

/-- Embedding of `WebCryptoWorkerProvider.decrypt` (result only). -/
def WebCrypto.decrypt (E : CryptoEngine) (data : Bytes) (password : String) :
    Except String Bytes :=
  (WebCrypto.decryptInstr E data password).1

/-- Embedding of `WebCryptoWorkerProvider.normalizeError`. -/
def WebCrypto.normalizeError (error : RawErr) : NormError :=
  let errorMessage := jsErrMessage error
  if lowerIncludes errorMessage "wrong password" || lowerIncludes errorMessage "corrupted data" then
    { code := .WRONG_PASSWORD, message := errorMessage,
      userMessage := "❌ Incorrect password or corrupted file" }
  else if lowerIncludes errorMessage "password is required" then
    { code := .PASSWORD_TOO_LONG, message := errorMessage,
      userMessage := "❌ Password is required" }
  else if lowerIncludes errorMessage "password too long" then
    { code := .PASSWORD_TOO_LONG, message := errorMessage,
      userMessage := tooLongMsg 1024 }
  else if lowerIncludes errorMessage "invalid format" || lowerIncludes errorMessage "file too short" then
    { code := .INVALID_FORMAT, message := errorMessage,
      userMessage := "❌ Invalid encrypted file format" }
  else if lowerIncludes errorMessage "encrypt failed" then
    { code := .ENCRYPTION_FAILED, message := errorMessage,
      userMessage := "❌ Encryption failed" }
  else if lowerIncludes errorMessage "decrypt failed" then
    { code := .DECRYPTION_FAILED, message := errorMessage,
      userMessage := "❌ Decryption failed" }
  else
    { code := .UNKNOWN_ERROR, message := errorMessage,
      userMessage := "❌ An unexpected error occurred" }

/-- The disjunction of the AEAD-provider keyword guards. -/
def WebCrypto.recognized (msg : String) : Bool :=
  lowerIncludes msg "wrong password" || lowerIncludes msg "corrupted data" ||
  lowerIncludes msg "password is required" || lowerIncludes msg "password too long" ||
  lowerIncludes msg "invalid format" || lowerIncludes msg "file too short" ||
  lowerIncludes msg "encrypt failed" || lowerIncludes msg "decrypt failed"

/-! ## Third-party provider: `AgeWorkerProvider` -/

/-- The rage-wasm backend: `encrypt_with_user_passphrase(pass, data, armor)`
and `decrypt_with_user_passphrase(pass, data)`. -/
structure RageBackend where
  encP : String → Bytes → Bool → Except String Bytes
  decP : String → Bytes → Except String Bytes

/-- Embedding of `AgeWorkerProvider.validatePassword`. -/
def Age.validatePassword (password : String) : Except String Unit :=
  if password = "" then .error "Password is required"
  else if password.length = 0 then .error "Password cannot be empty"
  else .ok ()

/-- Embedding of `AgeWorkerProvider.encrypt`: validate, then delegate with `armor=false`. -/
def Age.encrypt (r : RageBackend) (data : Bytes) (password : String) :
    Except String Bytes :=
  match Age.validatePassword password with
  | .error e => .error (enhance "encrypt" e)
  | .ok _ => mapErr (enhance "encrypt") (r.encP password data false)

/-- Embedding of `AgeWorkerProvider.decrypt`. -/
def Age.decrypt (r : RageBackend) (data : Bytes) (password : String) :
    Except String Bytes :=
  mapErr (enhance "decrypt") (r.decP password data)

/-- Embedding of `AgeWorkerProvider.normalizeError`. -/
def Age.normalizeError (error : RawErr) : NormError :=
  let errorMessage := jsErrMessage error
  if lowerIncludes errorMessage "wrong password" || lowerIncludes errorMessage "incorrect passphrase" ||
      lowerIncludes errorMessage "decryption failed" || lowerIncludes errorMessage "failed to decrypt" then
    { code := .WRONG_PASSWORD, message := errorMessage,
      userMessage := "❌ Incorrect password. Please check your password and try again." }
  else if lowerIncludes errorMessage "invalid" || lowerIncludes errorMessage "format" ||
      lowerIncludes errorMessage "not an age encrypted file" || lowerIncludes errorMessage "malformed" then
    { code := .INVALID_FORMAT, message := errorMessage,
      userMessage := "❌ This file is not a valid age encrypted file" }
  else if lowerIncludes errorMessage "corrupted" || lowerIncludes errorMessage "tampered" then
    { code := .CORRUPTED_DATA, message := errorMessage,
      userMessage := "❌ File appears to be corrupted or tampered with" }
  else if lowerIncludes errorMessage "password is required" then
    { code := .PASSWORD_REQUIRED, message := errorMessage,
      userMessage := "❌ Password is required" }
  else
    { code := .UNKNOWN_ERROR, message := errorMessage,
      userMessage := "❌ An unexpected error occurred" }

/-- The disjunction of the age-provider keyword guards. -/
def Age.recognized (msg : String) : Bool :=
  lowerIncludes msg "wrong password" || lowerIncludes msg "incorrect passphrase" ||
  lowerIncludes msg "decryption failed" || lowerIncludes msg "failed to decrypt" ||
  lowerIncludes msg "invalid" || lowerIncludes msg "format" ||
  lowerIncludes msg "not an age encrypted file" || lowerIncludes msg "malformed" ||
  lowerIncludes msg "corrupted" || lowerIncludes msg "tampered" ||
  lowerIncludes msg "password is required"

/-! ## Provider registry and message router -/

/-- The three provider variants (the worker holds exactly one instance;
each instance wraps the corresponding fixed backend of `Backends`). -/
inductive Provider where
  | jsAesCrypt
  | webCrypto
  | age
  deriving DecidableEq, Repr

/-- The three external backends the worker was started with. -/
structure Backends where
  aes : AesCryptBackend
  engine : CryptoEngine
  rage : RageBackend

/-- The worker's module-level mutable state: the active `provider`
instance, the `currentProviderType` tag, and the `rageWasmReady` flag
(`rageWasm` and `rageWasmReady` are set together by the async loader, so a
single flag models both `!rageWasmReady || !rageWasm`). -/
structure WorkerState where
  provider : Provider
  currentProviderType : String
  rageWasmReady : Bool
  deriving DecidableEq, Repr

/-- Embedding of `setProvider(providerType)`: no-op when the tag is already current;
constructs the new provider and updates both the instance and the tag, or
throws (so the state is returned unchanged by the caller's `catch`). -/
def setProvider (st : WorkerState) (providerType : String) :
    Except String WorkerState :=
  if providerType = st.currentProviderType then .ok st
  else if providerType = "jsAesCrypt" then
    .ok { st with provider := .jsAesCrypt, currentProviderType := "jsAesCrypt" }
  else if providerType = "webCrypto" then
    .ok { st with provider := .webCrypto, currentProviderType := "webCrypto" }
  else if providerType = "age" then
    if st.rageWasmReady = false then
      .error "Age encryption library not loaded yet. Please wait a moment and try again."
    else .ok { st with provider := .age, currentProviderType := "age" }
  else .error ("Unknown provider type: " ++ providerType)

/-- Dispatch of the uniform capability set to the active variant. -/
def Provider.encryptOp (B : Backends) : Provider → Bytes → String → Except String Bytes
  | .jsAesCrypt => JsAes.encrypt B.aes
  | .webCrypto => WebCrypto.encrypt B.engine
  | .age => Age.encrypt B.rage

/-- Dispatch of `decrypt`. -/
def Provider.decryptOp (B : Backends) : Provider → Bytes → String → Except String Bytes
  | .jsAesCrypt => JsAes.decrypt B.aes
  | .webCrypto => WebCrypto.decrypt B.engine
  | .age => Age.decrypt B.rage

/-- The value of `provider.getInfo().fileExtension` per variant. -/
def Provider.fileExtension : Provider → String
  | .jsAesCrypt => ".aes"
  | .webCrypto => ".enc"
  | .age => ".age"

/-- Dispatch of `normalizeError`. -/
def Provider.normErr (B : Backends) : Provider → RawErr → NormError
  | .jsAesCrypt => JsAes.normalizeError B.aes
  | .webCrypto => fun e => WebCrypto.normalizeError e
  | .age => fun e => Age.normalizeError e

/-- Dispatch of the per-variant keyword-guard disjunction. -/
def Provider.recognized : Provider → String → Bool
  | .jsAesCrypt => JsAes.recognized
  | .webCrypto => WebCrypto.recognized
  | .age => Age.recognized

/-- One outbound `postMessage` payload. `errorMsg` carries
`["ERROR", userMessage, action-or-null]`; `result` carries
`[action, bytes, outputFileName]`. -/
inductive OutMsg where
  | errorMsg (userMessage : String) (action : Option String)
  | initSuccess (providerType : String)
  | initError (message : String)
  | result (action : String) (payload : Bytes) (fileName : String)
  deriving DecidableEq, Repr

/-- Result of handling one inbound envelope: the new worker state, the
messages posted back (in order), and the number of provider
encrypt/decrypt operations invoked (instrumentation used to state the
"no provider operation" claims). -/
structure RouterResult where
  state : WorkerState
  posted : List OutMsg
  providerCalls : Nat
  deriving DecidableEq, Repr

/-- The ENCRYPT/DECRYPT dispatch after all validation and any provider
switch: invoke the captured provider and post exactly one envelope.
On encrypt success the output name is `fileName + fileExtension`; on
decrypt success it is `fileName.split('.').slice(0,-1).join('.')`; on
failure the provider's `normalizeError` supplies the user message (the
raised JS `Error` carries the enhanced message string). -/
def dispatchOp (B : Backends) (st : WorkerState) (action : String)
    (content : Bytes) (password fileName : String) : RouterResult :=
  if action = "ENCRYPT" then
    match Provider.encryptOp B st.provider content password with
    | .ok r =>
      ⟨st, [OutMsg.result "ENCRYPT" r (fileName ++ Provider.fileExtension st.provider)], 1⟩
    | .error e =>
      ⟨st, [OutMsg.errorMsg (Provider.normErr B st.provider (RawErr.err (some e))).userMessage
              (some "ENCRYPT")], 1⟩
  else
    match Provider.decryptOp B st.provider content password with
    | .ok r =>
      ⟨st, [OutMsg.result "DECRYPT" r (stripLastExt fileName)], 1⟩
    | .error e =>
      ⟨st, [OutMsg.errorMsg (Provider.normErr B st.provider (RawErr.err (some e))).userMessage
              (some "DECRYPT")], 1⟩

/-- The optional-`providerType` validation of the ENCRYPT/DECRYPT branch:
present but not a string, or a string outside the enumerated
jsAesCrypt / webCrypto / age identifiers. -/
def ptInvalid : JSVal → Bool
  | .undef => false
  | .str t => !(t = "jsAesCrypt" || t = "webCrypto" || t = "age")
  | _ => true

/-- The filename guard of the ENCRYPT/DECRYPT branch: `typeof fileName !==
string, or it contains one of the three forbidden substrings (dot-dot,
slash, backslash). -/
def fileNameInvalid : JSVal → Bool
  | .str s => strIncludes s ".." || strIncludes s "/" || strIncludes s "\\"
  | _ => true

/-- The `INIT` branch: the falsy default to jsAesCrypt, the enumeration check,
then `setProvider` under `try/catch`. -/
def handleInit (st : WorkerState) (raw : JSVal) : RouterResult :=
  let providerType := if raw.truthy then raw else JSVal.str "jsAesCrypt"
  match providerType with
  | JSVal.str t =>
    if t = "jsAesCrypt" || t = "webCrypto" || t = "age" then
      match setProvider st t with
      | .ok st2 => ⟨st2, [OutMsg.initSuccess t], 0⟩
      | .error e => ⟨st, [OutMsg.initError e], 0⟩
    else ⟨st, [OutMsg.initError "Invalid provider type"], 0⟩
  | _ => ⟨st, [OutMsg.initError "Invalid provider type"], 0⟩

/-- The ENCRYPT/DECRYPT branch: the four validation stages in source
order (file, password, fileName, optional providerType), the conditional
provider switch under `try/catch`, then the dispatch. After the
`ptInvalid` stage the providerType is `undefined` or one of the three
enumerated identifiers, so the switch guard `providerType &&
providerType !== currentProviderType` is matched on exactly those shapes
(a falsy empty string performs no switch). -/
def handleCrypt (B : Backends) (st : WorkerState) (action : String)
    (file password fileName providerType : JSVal) : RouterResult :=
  match file with
  | JSVal.blob content =>
    match password with
    | JSVal.str pw =>
      if pw.length = 0 then ⟨st, [OutMsg.errorMsg "Invalid password" (some action)], 0⟩
      else
        match fileName with
        | JSVal.str fn =>
          if strIncludes fn ".." || strIncludes fn "/" || strIncludes fn "\\" then
            ⟨st, [OutMsg.errorMsg "Invalid filename" (some action)], 0⟩
          else if ptInvalid providerType then
            ⟨st, [OutMsg.errorMsg "Invalid provider type" (some action)], 0⟩
          else
            match providerType with
            | JSVal.str t =>
              if t = "" then dispatchOp B st action content pw fn
              else if t = st.currentProviderType then dispatchOp B st action content pw fn
              else
                match setProvider st t with
                | .ok st2 => dispatchOp B st2 action content pw fn
                | .error e =>
                  ⟨st, [OutMsg.errorMsg ("Failed to switch provider: " ++ e) (some action)], 0⟩
            | _ => dispatchOp B st action content pw fn
        | _ => ⟨st, [OutMsg.errorMsg "Invalid filename" (some action)], 0⟩
    | _ => ⟨st, [OutMsg.errorMsg "Invalid password" (some action)], 0⟩
  | _ => ⟨st, [OutMsg.errorMsg "Invalid file data" (some action)], 0⟩

/-- The worker's `onmessage` handler over one inbound envelope `data`:
array-shape check, action-tag check, then the `INIT` and
`ENCRYPT`/`DECRYPT` branches. A well-formed envelope whose string action
is none of the three tags falls through the final `if` and posts nothing. -/
def onmessage (B : Backends) (st : WorkerState) (data : JSVal) : RouterResult :=
  match data with
  | JSVal.arr items =>
    if items.length < 1 then
      ⟨st, [OutMsg.errorMsg "Invalid message format" none], 0⟩
    else
      match jsIndex items 0 with
      | JSVal.str action =>
        if action = "INIT" then handleInit st (jsIndex items 1)
        else if action = "ENCRYPT" || action = "DECRYPT" then
          handleCrypt B st action (jsIndex items 1) (jsIndex items 2)
            (jsIndex items 3) (jsIndex items 4)
        else ⟨st, [], 0⟩
      | _ => ⟨st, [OutMsg.errorMsg "Invalid action type" none], 0⟩
  | _ => ⟨st, [OutMsg.errorMsg "Invalid message format" none], 0⟩

/-! ## Concrete sample backends (used to instantiate witnesses) -/

/-- A toy password digest for the sample backends. -/
def pwHash (pw : String) : Nat :=
  pw.data.foldl (fun a c => a + c.toNat) 0

/-- Sample legacy codec: prepends a password digest and checks it on
decrypt, reporting the legacy wrong-password keyed-hash signal. -/
def sampleAes : AesCryptBackend where
  encryptB := fun m pw => .ok (pwHash pw :: m)
  decryptB := fun c pw =>
    match c with
    | [] => .error "not an aes crypt file"
    | h :: t => if h = pwHash pw then .ok t else .error "wrong password (bad hmac)"
  info := none

/-- Sample AES-GCM tag: 16 bytes derived from the key. -/
def tagOf (k : Bytes) : Bytes :=
  List.replicate 16 ((k.foldl (fun a b => a + b) 0) % 256)

/-- Sample platform engine: appends a key-dependent 16-byte tag and
verifies it on decryption, failing with `OperationError` on mismatch. -/
def sampleEngine : CryptoEngine where
  deriveKey := fun pw salt => pwHash pw :: salt
  gcmEncrypt := fun k _iv m => m ++ tagOf k
  gcmDecrypt := fun k _iv c =>
    if c.length < 16 then .error .operationError
    else if c.drop (c.length - 16) = tagOf k then .ok (c.take (c.length - 16))
    else .error .operationError
  randomBytes := fun n => List.replicate n 7
  rand_len := fun n => List.length_replicate n 7

/-- Sample rage-wasm backend, reporting `decryption failed` on a wrong
passphrase. -/
def sampleRage : RageBackend where
  encP := fun pw m _armor => .ok (pwHash pw :: m)
  decP := fun pw c =>
    match c with
    | [] => .error "malformed header"
    | h :: t => if h = pwHash pw then .ok t else .error "decryption failed"

/-- The sample backend triple. -/
def sampleBackends : Backends :=
  ⟨sampleAes, sampleEngine, sampleRage⟩

/-- Worker state right after startup: legacy provider active, rage-wasm
still loading. -/
def startState : WorkerState :=
  ⟨Provider.jsAesCrypt, "jsAesCrypt", false⟩

/-- Worker state with the AEAD provider active. -/
def webState : WorkerState :=
  ⟨Provider.webCrypto, "webCrypto", false⟩

/-- The sample AEAD container for password `"pw123"` and payload
`"hello"` (`pwHash "pw123" = 381`, key fold `493 % 256 = 237`). -/
def sampleHelloCipher : Bytes :=
  List.replicate 16 7 ++ List.replicate 12 7 ++
    ([104, 101, 108, 108, 111] ++ List.replicate 16 237)

/-! ## Helper lemmas -/

theorem string_data_append (a b : String) : (a ++ b).data = a.data ++ b.data := rfl

theorem string_ne_empty_of_data_ne_nil (a : String) (h : a.data ≠ []) : a ≠ "" := by
  intro he
  exact h (by rw [he])

theorem append_ne_empty_right (a b : String) (h : b ≠ "") : a ++ b ≠ "" := by
  apply string_ne_empty_of_data_ne_nil
  rw [string_data_append]
  intro hnil
  rcases List.append_eq_nil.mp hnil with ⟨_, hb⟩
  exact h (by cases b; simp_all)

theorem append_ne_empty_left (a b : String) (h : a ≠ "") : a ++ b ≠ "" := by
  apply string_ne_empty_of_data_ne_nil
  rw [string_data_append]
  intro hnil
  rcases List.append_eq_nil.mp hnil with ⟨ha, _⟩
  exact h (by cases a; simp_all)

theorem enhance_ne_empty (op m : String) : enhance op m ≠ "" := by
  unfold enhance
  apply append_ne_empty_left
  apply append_ne_empty_right
  decide

theorem jsErrMessage_err_enhance (op m : String) :
    jsErrMessage (RawErr.err (some (enhance op m))) = enhance op m := by
  simp [jsErrMessage, enhance_ne_empty op m]

theorem hasInfix_append_left (pat s t : List Char) (h : hasInfix pat t = true) :
    hasInfix pat (s ++ t) = true := by
  induction s with
  | nil => simpa using h
  | cons c cs ih =>
    rw [List.cons_append, hasInfix]
    exact Bool.or_eq_true_iff.mpr (Or.inr ih)

theorem lowerIncludes_append_right (x m pat : String) (h : lowerIncludes m pat = true) :
    lowerIncludes (x ++ m) pat = true := by
  unfold lowerIncludes at h ⊢
  rw [string_data_append, List.map_append]
  exact hasInfix_append_left _ _ _ h

theorem lowerIncludes_enhance (op m pat : String) (h : lowerIncludes m pat = true) :
    lowerIncludes (enhance op m) pat = true := by
  unfold enhance
  exact lowerIncludes_append_right _ _ _ h

theorem take_len_append (a b : Bytes) : (a ++ b).take a.length = a :=
  List.take_left a b

theorem drop_len_append (a b : Bytes) : (a ++ b).drop a.length = b :=
  List.drop_left a b

theorem container_take16 (s i ct : Bytes) (hs : s.length = 16) :
    (s ++ i ++ ct).take 16 = s := by
  rw [List.append_assoc, ← hs, take_len_append]

theorem container_mid (s i ct : Bytes) (hs : s.length = 16) (hi : i.length = 12) :
    ((s ++ i ++ ct).drop 16).take 12 = i := by
  rw [List.append_assoc, ← hs, drop_len_append, ← hi, take_len_append]

theorem container_drop28 (s i ct : Bytes) (hs : s.length = 16) (hi : i.length = 12) :
    (s ++ i ++ ct).drop 28 = ct := by
  have h : (s ++ i).length = 28 := by simp [List.length_append, hs, hi]
  rw [← h, drop_len_append]

theorem container_length (s i ct : Bytes) (hs : s.length = 16) (hi : i.length = 12) :
    (s ++ i ++ ct).length = 28 + ct.length := by
  simp [List.length_append, hs, hi]
  omega

theorem webcrypto_encrypt_ok (E : CryptoEngine) (payload : Bytes) (pw : String) (c : Bytes)
    (h : WebCrypto.encrypt E payload pw = Except.ok c) :
    WebCrypto.validatePassword pw = Except.ok () ∧
    c = E.randomBytes 16 ++ E.randomBytes 12 ++
        E.gcmEncrypt (E.deriveKey pw (E.randomBytes 16)) (E.randomBytes 12) payload := by
  unfold WebCrypto.encrypt at h
  cases hv : WebCrypto.validatePassword pw with
  | error e => rw [hv] at h; cases h
  | ok u => rw [hv] at h; cases u; cases h; exact ⟨rfl, rfl⟩

theorem webcrypto_decrypt_container (E : CryptoEngine) (ct : Bytes) (pw : String) :
    WebCrypto.decryptInstr E (E.randomBytes 16 ++ E.randomBytes 12 ++ ct) pw =
      (match E.gcmDecrypt (E.deriveKey pw (E.randomBytes 16)) (E.randomBytes 12) ct with
       | .ok d => (Except.ok d, 1)
       | .error .operationError =>
           (Except.error (enhance "decrypt" "Wrong password or corrupted data"), 1)
       | .error (.other m) => (Except.error (enhance "decrypt" m), 1)) := by
  have hs := E.rand_len 16
  have hi := E.rand_len 12
  have hlen := container_length (E.randomBytes 16) (E.randomBytes 12) ct hs hi
  unfold WebCrypto.decryptInstr
  rw [if_neg (by omega)]
  rw [container_take16 _ _ _ hs, container_mid _ _ _ hs hi, container_drop28 _ _ _ hs hi]

theorem sampleAes_roundtrip (m : Bytes) (pw : String) :
    ∀ c, sampleAes.encryptB m pw = Except.ok c → sampleAes.decryptB c pw = Except.ok m := by
  intro c h
  simp only [sampleAes] at h
  cases h
  simp [sampleAes]

theorem sampleRage_roundtrip (m : Bytes) (pw : String) :
    ∀ c, sampleRage.encP pw m false = Except.ok c → sampleRage.decP pw c = Except.ok m := by
  intro c h
  simp only [sampleRage] at h
  cases h
  simp [sampleRage]

theorem sampleEngine_gcm_roundtrip (k iv m : Bytes) :
    sampleEngine.gcmDecrypt k iv (sampleEngine.gcmEncrypt k iv m) = Except.ok m := by
  simp only [sampleEngine]
  have hlen : (m ++ tagOf k).length = m.length + 16 := by
    simp [tagOf, List.length_append]
  rw [if_neg (by omega)]
  have hdrop : (m ++ tagOf k).drop ((m ++ tagOf k).length - 16) = tagOf k := by
    rw [hlen]
    have : m.length + 16 - 16 = m.length := by omega
    rw [this, drop_len_append]
  rw [hdrop, if_pos rfl, hlen]
  have : m.length + 16 - 16 = m.length := by omega
  rw [this, take_len_append]

theorem sampleEngine_tag_len (k iv m : Bytes) :
    (sampleEngine.gcmEncrypt k iv m).length = m.length + 16 := by
  simp [sampleEngine, tagOf, List.length_append]

theorem sampleEngine_gcm_auth (k k2 : Bytes) (hne : tagOf k ≠ tagOf k2) :
    ∀ iv m, sampleEngine.gcmDecrypt k2 iv (sampleEngine.gcmEncrypt k iv m) =
      Except.error GcmFailure.operationError := by
  intro iv m
  simp only [sampleEngine]
  have hlen : (m ++ tagOf k).length = m.length + 16 := by
    simp [tagOf, List.length_append]
  rw [if_neg (by omega)]
  have hdrop : (m ++ tagOf k).drop ((m ++ tagOf k).length - 16) = tagOf k := by
    rw [hlen]
    have : m.length + 16 - 16 = m.length := by omega
    rw [this, drop_len_append]
  rw [hdrop, if_neg hne]

theorem sampleAes_wrongpw (m : Bytes) (pw pw2 : String) (h : pwHash pw ≠ pwHash pw2) :
    ∀ c, sampleAes.encryptB m pw = Except.ok c →
      sampleAes.decryptB c pw2 = Except.error "wrong password (bad hmac)" := by
  intro c hc
  simp only [sampleAes] at hc
  cases hc
  simp [sampleAes, h]

theorem sampleRage_wrongpw (m : Bytes) (pw pw2 : String) (h : pwHash pw ≠ pwHash pw2) :
    ∀ c, sampleRage.encP pw m false = Except.ok c →
      sampleRage.decP pw2 c = Except.error "decryption failed" := by
  intro c hc
  simp only [sampleRage] at hc
  cases hc
  simp [sampleRage, h]

theorem onmessage_crypt_eq (B : Backends) (st : WorkerState) (action : String)
    (hact : action = "ENCRYPT" ∨ action = "DECRYPT") (a b c d : JSVal) :
    onmessage B st (JSVal.arr [JSVal.str action, a, b, c, d]) =
      handleCrypt B st action a b c d := by
  rcases hact with h | h <;> subst h <;> rfl

theorem onmessage_crypt4_eq (B : Backends) (st : WorkerState) (action : String)
    (hact : action = "ENCRYPT" ∨ action = "DECRYPT") (a b c : JSVal) :
    onmessage B st (JSVal.arr [JSVal.str action, a, b, c]) =
      handleCrypt B st action a b c JSVal.undef := by
  rcases hact with h | h <;> subst h <;> rfl

theorem onmessage_init_eq (B : Backends) (st : WorkerState) (raw : JSVal) :
    onmessage B st (JSVal.arr [JSVal.str "INIT", raw]) = handleInit st raw := rfl

/-- C6: for the AEAD (webCrypto) provider, decrypting any input of 27
bytes or fewer fails with error code INVALID_FORMAT, and the failure
occurs before any key derivation is attempted (the PBKDF2 derivation is
never invoked for such inputs — derivation count 0); inputs of 28 bytes
or more pass the length check (the derivation is reached, count 1). -/
theorem C6_truncated_container (E : CryptoEngine) (data : Bytes) (pw : String) :
    (data.length ≤ 27 →
      WebCrypto.decryptInstr E data pw =
        (Except.error "decrypt failed: Invalid file format: file too short", 0) ∧
      (WebCrypto.normalizeError
          (RawErr.err (some "decrypt failed: Invalid file format: file too short"))).code =
        ErrorCode.INVALID_FORMAT) ∧
    (28 ≤ data.length → (WebCrypto.decryptInstr E data pw).2 = 1) := by
  constructor
  · intro h
    have hlt : data.length < 28 := by omega
    constructor
    · unfold WebCrypto.decryptInstr
      rw [if_pos hlt]
      rfl
    · decide
  · intro h
    unfold WebCrypto.decryptInstr
    rw [if_neg (by omega)]
    dsimp only
    split <;> rfl

/-- C6 witness: a 10-byte input is rejected as INVALID_FORMAT with no key
derivation, and a 28-byte input passes the length check. -/
theorem C6_truncated_container_witness :
    (WebCrypto.decryptInstr sampleEngine (List.replicate 10 0) "pw" =
      (Except.error "decrypt failed: Invalid file format: file too short", 0) ∧
    (WebCrypto.normalizeError
        (RawErr.err (some "decrypt failed: Invalid file format: file too short"))).code =
      ErrorCode.INVALID_FORMAT) ∧
    (WebCrypto.decryptInstr sampleEngine (List.replicate 28 0) "pw").2 = 1 := by
  constructor
  · exact (C6_truncated_container sampleEngine (List.replicate 10 0) "pw").1 (by decide)
  · exact (C6_truncated_container sampleEngine (List.replicate 28 0) "pw").2 (by decide)

theorem handleCrypt_valid_undef (B : Backends) (st : WorkerState) (action : String)
    (content : Bytes) (pw fn : String) (hpw : pw.length ≠ 0)
    (hfn : (strIncludes fn ".." || strIncludes fn "/" || strIncludes fn "\\") = false) :
    handleCrypt B st action (JSVal.blob content) (JSVal.str pw) (JSVal.str fn) JSVal.undef =
      dispatchOp B st action content pw fn := by
  simp [handleCrypt, ptInvalid, hpw, hfn]

theorem handleCrypt_switch_fail (B : Backends) (st : WorkerState) (action : String)
    (content : Bytes) (pw fn t e : String) (hpw : pw.length ≠ 0)
    (hfn : (strIncludes fn ".." || strIncludes fn "/" || strIncludes fn "\\") = false)
    (ht : t = "jsAesCrypt" ∨ t = "webCrypto" ∨ t = "age")
    (hne : t ≠ "") (hcur : t ≠ st.currentProviderType)
    (hsw : setProvider st t = Except.error e) :
    handleCrypt B st action (JSVal.blob content) (JSVal.str pw) (JSVal.str fn) (JSVal.str t) =
      ⟨st, [OutMsg.errorMsg ("Failed to switch provider: " ++ e) (some action)], 0⟩ := by
  have hpt : ptInvalid (JSVal.str t) = false := by
    rcases ht with h | h | h <;> subst h <;> rfl
  simp [handleCrypt, hpw, hfn, hpt, hne, hcur, hsw]

theorem dispatchOp_encrypt_ok (B : Backends) (st : WorkerState)
    (content : Bytes) (pw fn : String) (r : Bytes)
    (h : Provider.encryptOp B st.provider content pw = Except.ok r) :
    dispatchOp B st "ENCRYPT" content pw fn =
      ⟨st, [OutMsg.result "ENCRYPT" r (fn ++ Provider.fileExtension st.provider)], 1⟩ := by
  simp [dispatchOp, h]

theorem dispatchOp_decrypt_ok (B : Backends) (st : WorkerState)
    (content : Bytes) (pw fn : String) (r : Bytes)
    (h : Provider.decryptOp B st.provider content pw = Except.ok r) :
    dispatchOp B st "DECRYPT" content pw fn =
      ⟨st, [OutMsg.result "DECRYPT" r (stripLastExt fn)], 1⟩ := by
  simp [dispatchOp, h]

theorem dispatchOp_encrypt_err (B : Backends) (st : WorkerState)
    (content : Bytes) (pw fn e : String)
    (h : Provider.encryptOp B st.provider content pw = Except.error e) :
    dispatchOp B st "ENCRYPT" content pw fn =
      ⟨st, [OutMsg.errorMsg (Provider.normErr B st.provider (RawErr.err (some e))).userMessage
        (some "ENCRYPT")], 1⟩ := by
  simp [dispatchOp, h]

theorem dispatchOp_decrypt_err (B : Backends) (st : WorkerState)
    (content : Bytes) (pw fn e : String)
    (h : Provider.decryptOp B st.provider content pw = Except.error e) :
    dispatchOp B st "DECRYPT" content pw fn =
      ⟨st, [OutMsg.errorMsg (Provider.normErr B st.provider (RawErr.err (some e))).userMessage
        (some "DECRYPT")], 1⟩ := by
  simp [dispatchOp, h]

/-- C7: the AEAD encrypt output is the raw concatenation
`salt(16) ‖ nonce(12) ‖ ciphertext+tag`, so (with the engine's 16-byte
tag) its length is payload length + 44; in the end-to-end scenario with
password "pw123" and a 5-byte payload the ciphertext is 49 bytes, and an
Encrypt request with fileName "x.txt" under the webCrypto provider posts
output name "x.txt.enc". -/
theorem C7_aead_container (B : Backends) (payload : Bytes) (pw : String)
    (htag : ∀ k iv m, (B.engine.gcmEncrypt k iv m).length = m.length + 16) :
    (∀ c, WebCrypto.encrypt B.engine payload pw = Except.ok c →
      c = B.engine.randomBytes 16 ++ B.engine.randomBytes 12 ++
          B.engine.gcmEncrypt (B.engine.deriveKey pw (B.engine.randomBytes 16))
            (B.engine.randomBytes 12) payload ∧
      c.length = payload.length + 44) ∧
    (∀ st c, st.provider = Provider.webCrypto → payload.length = 5 →
      WebCrypto.encrypt B.engine payload "pw123" = Except.ok c →
      c.length = 49 ∧
      onmessage B st (JSVal.arr [JSVal.str "ENCRYPT", JSVal.blob payload,
          JSVal.str "pw123", JSVal.str "x.txt"]) =
        ⟨st, [OutMsg.result "ENCRYPT" c "x.txt.enc"], 1⟩) := by
  have hshape : ∀ pw c, WebCrypto.encrypt B.engine payload pw = Except.ok c →
      c.length = payload.length + 44 := by
    intro pw c h
    obtain ⟨-, hc⟩ := webcrypto_encrypt_ok _ _ _ _ h
    subst hc
    rw [container_length _ _ _ (B.engine.rand_len 16) (B.engine.rand_len 12), htag]
    omega
  constructor
  · intro c h
    obtain ⟨-, hc⟩ := webcrypto_encrypt_ok _ _ _ _ h
    exact ⟨hc, hshape pw c h⟩
  · intro st c hprov hlen henc
    refine ⟨by rw [hshape _ _ henc, hlen], ?_⟩
    rw [onmessage_crypt4_eq B st "ENCRYPT" (Or.inl rfl)]
    rw [handleCrypt_valid_undef B st "ENCRYPT" payload "pw123" "x.txt" (by decide) (by decide)]
    have hop : Provider.encryptOp B st.provider payload "pw123" = Except.ok c := by
      rw [hprov]
      exact henc
    rw [dispatchOp_encrypt_ok B st payload "pw123" "x.txt" c hop, hprov]
    rfl

/-- C7 witness: the sample engine realizes the scenario — encrypting
"hello" under "pw123" yields a concrete 49-byte container and the router
posts it with output name "x.txt.enc". -/
theorem C7_aead_container_witness :
    WebCrypto.encrypt sampleEngine [104, 101, 108, 108, 111] "pw123" =
      Except.ok sampleHelloCipher ∧
    sampleHelloCipher.length = 49 ∧
    onmessage sampleBackends webState (JSVal.arr [JSVal.str "ENCRYPT",
        JSVal.blob [104, 101, 108, 108, 111], JSVal.str "pw123", JSVal.str "x.txt"]) =
      ⟨webState, [OutMsg.result "ENCRYPT" sampleHelloCipher "x.txt.enc"], 1⟩ := by
  have henc : WebCrypto.encrypt sampleEngine [104, 101, 108, 108, 111] "pw123" =
      Except.ok sampleHelloCipher := by rfl
  have h := (C7_aead_container sampleBackends [104, 101, 108, 108, 111] "pw123"
      (fun k iv m => sampleEngine_tag_len k iv m)).2 webState sampleHelloCipher rfl rfl henc
  exact ⟨henc, h.1, h.2⟩

/-- C2: the decrypt-side output filename is
`fileName.split('.').slice(0,-1).join('.')`. For names containing a dot
this removes the final suffix, but for a dotless name such as "noext" the
code produces the EMPTY string, not the name unchanged as the spec
states: a successful Decrypt with fileName "noext" posts output name "".
This theorem evaluates the code at the failing input (and shows the
dotted cases behave as specified). -/
theorem C2_decrypt_noext_empty_name :
    stripLastExt "noext" = "" ∧
    stripLastExt "report.txt.enc" = "report.txt" ∧
    onmessage sampleBackends startState (JSVal.arr [JSVal.str "DECRYPT",
        JSVal.blob [231, 5, 6], JSVal.str "pw", JSVal.str "noext"]) =
      ⟨startState, [OutMsg.result "DECRYPT" [5, 6] ""], 1⟩ ∧
    OutMsg.result "DECRYPT" [5, 6] "" ≠ OutMsg.result "DECRYPT" [5, 6] "noext" := by
  refine ⟨rfl, rfl, ?_, by decide⟩
  rfl

/-- C9 counterexample: an Init request with a PRESENT but falsy
providerType (the empty string) is answered with InitSuccess for the
legacy provider (because the default expression treats every falsy
value as absent), not with InitError "Invalid provider type" as the
claim states. -/
theorem C9_falsy_init_counterexample :
    onmessage sampleBackends startState (JSVal.arr [JSVal.str "INIT", JSVal.str ""]) =
      ⟨startState, [OutMsg.initSuccess "jsAesCrypt"], 0⟩ ∧
    OutMsg.initSuccess "jsAesCrypt" ≠ OutMsg.initError "Invalid provider type" := by
  exact ⟨rfl, by decide⟩

/-- C9 (amended): a missing or FALSY providerType (undefined, null,
empty string, 0, false) defaults to the legacy provider and is answered
with InitSuccess "jsAesCrypt"; a present truthy providerType that is not
one of the three enumerated identifiers (a non-enumerated string or a
truthy non-string) is answered with InitError "Invalid provider type";
and a valid Init whose provider switch succeeds is answered with
InitSuccess carrying the selected providerType. -/
theorem C9_init_validation (B : Backends) (st : WorkerState) (raw : JSVal) :
    (raw.truthy = false →
      ∃ st2, onmessage B st (JSVal.arr [JSVal.str "INIT", raw]) =
          ⟨st2, [OutMsg.initSuccess "jsAesCrypt"], 0⟩ ∧
        st2.currentProviderType = "jsAesCrypt") ∧
    (raw.truthy = true →
      (∀ t, raw = JSVal.str t → ¬(t = "jsAesCrypt" ∨ t = "webCrypto" ∨ t = "age")) →
      onmessage B st (JSVal.arr [JSVal.str "INIT", raw]) =
        ⟨st, [OutMsg.initError "Invalid provider type"], 0⟩) ∧
    (∀ t st2, (t = "jsAesCrypt" ∨ t = "webCrypto" ∨ t = "age") →
      setProvider st t = Except.ok st2 →
      onmessage B st (JSVal.arr [JSVal.str "INIT", JSVal.str t]) =
        ⟨st2, [OutMsg.initSuccess t], 0⟩) := by
  refine ⟨?_, ?_, ?_⟩
  · intro hfalsy
    rw [onmessage_init_eq]
    unfold handleInit
    rw [hfalsy]
    by_cases hcur : st.currentProviderType = "jsAesCrypt"
    · refine ⟨st, ?_, hcur⟩
      have hok : setProvider st "jsAesCrypt" = Except.ok st := by
        unfold setProvider
        rw [if_pos hcur.symm]
      simp [hok]
    · refine ⟨{ st with provider := .jsAesCrypt, currentProviderType := "jsAesCrypt" }, ?_, rfl⟩
      have hok : setProvider st "jsAesCrypt" =
          Except.ok { st with provider := .jsAesCrypt, currentProviderType := "jsAesCrypt" } := by
        unfold setProvider
        rw [if_neg (fun h => hcur h.symm), if_pos rfl]
      simp [hok]
  · intro htruthy hbad
    rw [onmessage_init_eq]
    unfold handleInit
    rw [htruthy]
    cases raw with
    | str t =>
      have hnot := hbad t rfl
      have h3 : (t = "jsAesCrypt" || t = "webCrypto" || t = "age") = false := by
        simp only [Bool.or_eq_false_iff, decide_eq_false_iff_not]
        push_neg at hnot
        exact ⟨⟨hnot.1, hnot.2.1⟩, hnot.2.2⟩
      simp [h3]
    | num n => rfl
    | bool b => rfl
    | null => simp [JSVal.truthy] at htruthy
    | undef => simp [JSVal.truthy] at htruthy
    | blob content => rfl
    | arr xs => rfl
  · intro t st2 ht hsw
    rw [onmessage_init_eq]
    unfold handleInit
    have htr : (JSVal.str t).truthy = true := by
      rcases ht with h | h | h <;> subst h <;> rfl
    rw [htr]
    have h3 : (t = "jsAesCrypt" || t = "webCrypto" || t = "age") = true := by
      rcases ht with h | h | h <;> subst h <;> rfl
    simp [h3, hsw]

/-- C9 witness: undefined providerType defaults to legacy; the truthy
non-enumerated string "bogus" and the truthy number 1 are rejected; INIT
with "webCrypto" succeeds and reports the selected type. -/
theorem C9_init_validation_witness :
    onmessage sampleBackends startState (JSVal.arr [JSVal.str "INIT", JSVal.undef]) =
      ⟨startState, [OutMsg.initSuccess "jsAesCrypt"], 0⟩ ∧
    onmessage sampleBackends startState (JSVal.arr [JSVal.str "INIT", JSVal.str "bogus"]) =
      ⟨startState, [OutMsg.initError "Invalid provider type"], 0⟩ ∧
    onmessage sampleBackends startState (JSVal.arr [JSVal.str "INIT", JSVal.num 1]) =
      ⟨startState, [OutMsg.initError "Invalid provider type"], 0⟩ ∧
    onmessage sampleBackends startState (JSVal.arr [JSVal.str "INIT", JSVal.str "webCrypto"]) =
      ⟨webState, [OutMsg.initSuccess "webCrypto"], 0⟩ := by
  refine ⟨?_, ?_, ?_, ?_⟩
  · obtain ⟨st2, heq, -⟩ :=
      (C9_init_validation sampleBackends startState JSVal.undef).1 rfl
    have h2 : (⟨st2, [OutMsg.initSuccess "jsAesCrypt"], 0⟩ : RouterResult) =
        ⟨startState, [OutMsg.initSuccess "jsAesCrypt"], 0⟩ := by
      rw [← heq]
      rfl
    rw [heq, h2]
  · exact ((C9_init_validation sampleBackends startState (JSVal.str "bogus")).2.1 rfl
      (by intro t ht hmem; cases ht; revert hmem; decide))
  · exact ((C9_init_validation sampleBackends startState (JSVal.num 1)).2.1 rfl
      (by intro t ht; cases ht))
  · exact ((C9_init_validation sampleBackends startState (JSVal.str "webCrypto")).2.2
      "webCrypto" webState (Or.inr (Or.inl rfl)) rfl)

/-- C4 counterexample: selecting the age provider before rage-wasm is
ready produces plain-message envelopes — `InitError` with the thrown
message, or `Error{action, "Failed to switch provider: ..."}` — and no
envelope or normalized record carrying the code BACKEND_UNAVAILABLE:
even the provider normalizers map the thrown message to
UNKNOWN_ERROR (BACKEND_UNAVAILABLE occurs nowhere in the code). -/
theorem C4_switch_no_backend_unavailable :
    onmessage sampleBackends startState (JSVal.arr [JSVal.str "INIT", JSVal.str "age"]) =
      ⟨startState, [OutMsg.initError
        "Age encryption library not loaded yet. Please wait a moment and try again."], 0⟩ ∧
    onmessage sampleBackends startState (JSVal.arr [JSVal.str "ENCRYPT", JSVal.blob [1],
        JSVal.str "pw", JSVal.str "a", JSVal.str "age"]) =
      ⟨startState, [OutMsg.errorMsg
        "Failed to switch provider: Age encryption library not loaded yet. Please wait a moment and try again."
        (some "ENCRYPT")], 0⟩ ∧
    (Age.normalizeError (RawErr.err (some
        "Age encryption library not loaded yet. Please wait a moment and try again."))).code =
      ErrorCode.UNKNOWN_ERROR ∧
    (JsAes.normalizeError sampleAes (RawErr.err (some
        "Age encryption library not loaded yet. Please wait a moment and try again."))).code =
      ErrorCode.UNKNOWN_ERROR := by
  refine ⟨rfl, rfl, by decide, by decide⟩

/-- C4 (amended): selecting the age provider before its backend signals
readiness fails — `setProvider` throws
"Age encryption library not loaded yet...", surfaced as `InitError` on
Init and as `Error{action, "Failed to switch provider: ..."}` on
Encrypt/Decrypt (no BACKEND_UNAVAILABLE code is attached) — and the
switch is all-or-nothing: the state (active provider and type tag) is
unchanged, and a subsequent encrypt succeeds under the prior provider. -/
theorem C4_atomic_switch (B : Backends) (st : WorkerState)
    (hready : st.rageWasmReady = false) (hcurtag : st.currentProviderType = "jsAesCrypt")
    (hprior : st.provider = Provider.jsAesCrypt)
    (payload c : Bytes) (pw fn : String) (hpw : pw.length ≠ 0)
    (hfn : (strIncludes fn ".." || strIncludes fn "/" || strIncludes fn "\\") = false)
    (henc : B.aes.encryptB payload pw = Except.ok c) :
    setProvider st "age" =
      Except.error "Age encryption library not loaded yet. Please wait a moment and try again." ∧
    onmessage B st (JSVal.arr [JSVal.str "INIT", JSVal.str "age"]) =
      ⟨st, [OutMsg.initError
        "Age encryption library not loaded yet. Please wait a moment and try again."], 0⟩ ∧
    onmessage B st (JSVal.arr [JSVal.str "ENCRYPT", JSVal.blob payload, JSVal.str pw,
        JSVal.str fn, JSVal.str "age"]) =
      ⟨st, [OutMsg.errorMsg
        "Failed to switch provider: Age encryption library not loaded yet. Please wait a moment and try again."
        (some "ENCRYPT")], 0⟩ ∧
    onmessage B st (JSVal.arr [JSVal.str "ENCRYPT", JSVal.blob payload, JSVal.str pw,
        JSVal.str fn]) =
      ⟨st, [OutMsg.result "ENCRYPT" c (fn ++ ".aes")], 1⟩ := by
  have hsw : setProvider st "age" =
      Except.error "Age encryption library not loaded yet. Please wait a moment and try again." := by
    unfold setProvider
    rw [if_neg (by rw [hcurtag]; decide), if_neg (by decide), if_neg (by decide),
      if_pos rfl, if_pos hready]
  refine ⟨hsw, ?_, ?_, ?_⟩
  · rw [onmessage_init_eq]
    unfold handleInit
    have htr : (JSVal.str "age").truthy = true := rfl
    rw [if_pos htr]
    dsimp only
    rw [if_pos (show (decide ("age" = "jsAesCrypt") || decide ("age" = "webCrypto") ||
      decide ("age" = "age")) = true by decide), hsw]
  · rw [onmessage_crypt_eq B st "ENCRYPT" (Or.inl rfl)]
    rw [handleCrypt_switch_fail B st "ENCRYPT" payload pw fn "age" _ hpw hfn
      (Or.inr (Or.inr rfl)) (by decide) (by rw [hcurtag]; decide) hsw]
    rfl
  · rw [onmessage_crypt4_eq B st "ENCRYPT" (Or.inl rfl)]
    rw [handleCrypt_valid_undef B st "ENCRYPT" payload pw fn hpw hfn]
    have hop : Provider.encryptOp B st.provider payload pw = Except.ok c := by
      rw [hprior]
      show JsAes.encrypt B.aes payload pw = Except.ok c
      unfold JsAes.encrypt
      rw [henc]
      rfl
    rw [dispatchOp_encrypt_ok B st payload pw fn c hop, hprior]
    rfl

/-- C4 witness: the startup state with the sample backends realizes the
amended claim at a concrete request. -/
theorem C4_atomic_switch_witness :
    setProvider startState "age" =
      Except.error "Age encryption library not loaded yet. Please wait a moment and try again." ∧
    onmessage sampleBackends startState (JSVal.arr [JSVal.str "ENCRYPT", JSVal.blob [9, 8],
        JSVal.str "pw", JSVal.str "doc.txt", JSVal.str "age"]) =
      ⟨startState, [OutMsg.errorMsg
        "Failed to switch provider: Age encryption library not loaded yet. Please wait a moment and try again."
        (some "ENCRYPT")], 0⟩ ∧
    onmessage sampleBackends startState (JSVal.arr [JSVal.str "ENCRYPT", JSVal.blob [9, 8],
        JSVal.str "pw", JSVal.str "doc.txt"]) =
      ⟨startState, [OutMsg.result "ENCRYPT" [231, 9, 8] "doc.txt.aes"], 1⟩ := by
  have h := C4_atomic_switch sampleBackends startState rfl rfl rfl [9, 8] [231, 9, 8]
    "pw" "doc.txt" (by decide) (by decide) (by rfl)
  exact ⟨h.1, h.2.2.1, h.2.2.2⟩

/-- C8: with the earlier validation stages (blob payload, non-empty
string password) passing, a fileName that is not a string or contains
"..", "/" or "\" is answered with Error{action, "Invalid filename"}; and
for ANY request with such a fileName, no provider operation is invoked
and no provider switch is performed (state unchanged). -/
theorem C8_filename_guard (B : Backends) (st : WorkerState) (action : String)
    (hact : action = "ENCRYPT" ∨ action = "DECRYPT")
    (file password fn pt : JSVal) (hfn : fileNameInvalid fn = true) :
    (onmessage B st (JSVal.arr [JSVal.str action, file, password, fn, pt])).providerCalls = 0 ∧
    (onmessage B st (JSVal.arr [JSVal.str action, file, password, fn, pt])).state = st ∧
    (∀ content pw, file = JSVal.blob content → password = JSVal.str pw → pw.length ≠ 0 →
      onmessage B st (JSVal.arr [JSVal.str action, file, password, fn, pt]) =
        ⟨st, [OutMsg.errorMsg "Invalid filename" (some action)], 0⟩) := by
  rw [onmessage_crypt_eq B st action hact]
  have key : ∃ m, handleCrypt B st action file password fn pt =
      ⟨st, [OutMsg.errorMsg m (some action)], 0⟩ := by
    unfold handleCrypt
    cases file with
    | blob content =>
      cases password with
      | str pw =>
        dsimp only
        by_cases hpw : pw.length = 0
        · rw [if_pos hpw]
          exact ⟨"Invalid password", rfl⟩
        · rw [if_neg hpw]
          cases fn with
          | str s =>
            have hb : (strIncludes s ".." || strIncludes s "/" || strIncludes s "\\") = true := by
              simpa [fileNameInvalid] using hfn
            dsimp only
            rw [if_pos hb]
            exact ⟨"Invalid filename", rfl⟩
          | num n => exact ⟨"Invalid filename", rfl⟩
          | bool b => exact ⟨"Invalid filename", rfl⟩
          | null => exact ⟨"Invalid filename", rfl⟩
          | undef => exact ⟨"Invalid filename", rfl⟩
          | blob cc => exact ⟨"Invalid filename", rfl⟩
          | arr xs => exact ⟨"Invalid filename", rfl⟩
      | num n => exact ⟨"Invalid password", rfl⟩
      | bool b => exact ⟨"Invalid password", rfl⟩
      | null => exact ⟨"Invalid password", rfl⟩
      | undef => exact ⟨"Invalid password", rfl⟩
      | blob cc => exact ⟨"Invalid password", rfl⟩
      | arr xs => exact ⟨"Invalid password", rfl⟩
    | str s => exact ⟨"Invalid file data", rfl⟩
    | num n => exact ⟨"Invalid file data", rfl⟩
    | bool b => exact ⟨"Invalid file data", rfl⟩
    | null => exact ⟨"Invalid file data", rfl⟩
    | undef => exact ⟨"Invalid file data", rfl⟩
    | arr xs => exact ⟨"Invalid file data", rfl⟩
  obtain ⟨m, hm⟩ := key
  refine ⟨by rw [hm], by rw [hm], ?_⟩
  intro content pw hfile hpass hpw
  subst hfile
  subst hpass
  unfold handleCrypt
  dsimp only
  rw [if_neg hpw]
  cases fn with
  | str s =>
    have hb : (strIncludes s ".." || strIncludes s "/" || strIncludes s "\\") = true := by
      simpa [fileNameInvalid] using hfn
    dsimp only
    rw [if_pos hb]
  | num n => rfl
  | bool b => rfl
  | null => rfl
  | undef => rfl
  | blob cc => rfl
  | arr xs => rfl

/-- C8 witness: a traversal filename "../etc" on a valid Decrypt request
is rejected with "Invalid filename", invoking no provider and leaving
the state unchanged. -/
theorem C8_filename_guard_witness :
    onmessage sampleBackends startState (JSVal.arr [JSVal.str "DECRYPT", JSVal.blob [1, 2],
        JSVal.str "pw", JSVal.str "../etc", JSVal.undef]) =
      ⟨startState, [OutMsg.errorMsg "Invalid filename" (some "DECRYPT")], 0⟩ ∧
    (onmessage sampleBackends startState (JSVal.arr [JSVal.str "DECRYPT", JSVal.blob [1, 2],
        JSVal.str "pw", JSVal.str "../etc", JSVal.undef])).providerCalls = 0 := by
  have h := C8_filename_guard sampleBackends startState "DECRYPT" (Or.inr rfl)
    (JSVal.blob [1, 2]) (JSVal.str "pw") (JSVal.str "../etc") JSVal.undef (by decide)
  exact ⟨h.2.2 [1, 2] "pw" rfl rfl (by decide), h.1⟩

theorem dispatchOp_posted_len (B : Backends) (st : WorkerState) (action : String)
    (content : Bytes) (pw fn : String) :
    (dispatchOp B st action content pw fn).posted.length = 1 := by
  unfold dispatchOp
  repeat' split
  all_goals rfl

theorem handleInit_posted_len (st : WorkerState) (raw : JSVal) :
    (handleInit st raw).posted.length = 1 := by
  unfold handleInit
  dsimp only
  repeat' split
  all_goals rfl

theorem handleCrypt_posted_len (B : Backends) (st : WorkerState) (action : String)
    (file password fileName pt : JSVal) :
    (handleCrypt B st action file password fileName pt).posted.length = 1 := by
  unfold handleCrypt
  repeat' split
  all_goals first
    | rfl
    | apply dispatchOp_posted_len

/-- C3 counterexample: the well-formed envelope ["FOO"] (a string action
that is none of INIT/ENCRYPT/DECRYPT) produces NO response envelope at
all — the handler falls through its final `if` and posts nothing — so
`handle` neither produces exactly one envelope for every inbound
envelope nor answers "FOO" with Error{null, "Invalid action type"}. -/
theorem C3_unknown_action_counterexample :
    onmessage sampleBackends startState (JSVal.arr [JSVal.str "FOO"]) =
      ⟨startState, [], 0⟩ ∧
    ([] : List OutMsg) ≠ [OutMsg.errorMsg "Invalid action type" none] := by
  exact ⟨rfl, by decide⟩

/-- C3 (amended): the handler never raises (it is a total function here)
and posts AT MOST one response envelope per inbound envelope; the
"Invalid action type" error is produced exactly for well-formed arrays
whose first element is not a string; a well-formed array whose string
action tag is none of INIT/ENCRYPT/DECRYPT produces no response at all. -/
theorem C3_router_shape (B : Backends) (st : WorkerState) (data : JSVal) :
    (onmessage B st data).posted.length ≤ 1 ∧
    (∀ items, data = JSVal.arr items → 1 ≤ items.length →
      (∀ s, jsIndex items 0 ≠ JSVal.str s) →
      (onmessage B st data).posted = [OutMsg.errorMsg "Invalid action type" none]) ∧
    (∀ items action, data = JSVal.arr items → jsIndex items 0 = JSVal.str action →
      action ≠ "INIT" → action ≠ "ENCRYPT" → action ≠ "DECRYPT" →
      (onmessage B st data).posted = []) := by
  refine ⟨?_, ?_, ?_⟩
  · unfold onmessage
    repeat' split
    all_goals simp [handleInit_posted_len, handleCrypt_posted_len]
  · intro items hdata hlen hnostr
    subst hdata
    unfold onmessage
    dsimp only
    rw [if_neg (by omega)]
    cases h0 : jsIndex items 0 with
    | str s => exact absurd h0 (hnostr s)
    | num n => rfl
    | bool b => rfl
    | null => rfl
    | undef => rfl
    | blob c => rfl
    | arr xs => rfl
  · intro items action hdata h0 hI hE hD
    subst hdata
    unfold onmessage
    dsimp only
    have hlen : ¬ items.length < 1 := by
      intro hl
      have : items = [] := List.length_eq_zero.mp (by omega)
      subst this
      exact absurd h0 (by intro h; cases h)
    rw [if_neg hlen, h0]
    dsimp only
    rw [if_neg hI, if_neg (by simp [hE, hD])]

/-- C3 witness: a non-string action gets "Invalid action type", the
unknown string action "BAR" gets no response, and both runs post at most
one envelope. -/
theorem C3_router_shape_witness :
    (onmessage sampleBackends startState (JSVal.arr [JSVal.num 3])).posted.length ≤ 1 ∧
    (onmessage sampleBackends startState (JSVal.arr [JSVal.num 3])).posted =
      [OutMsg.errorMsg "Invalid action type" none] ∧
    (onmessage sampleBackends startState (JSVal.arr [JSVal.str "BAR"])).posted = [] := by
  refine ⟨(C3_router_shape sampleBackends startState _).1, ?_, ?_⟩
  · exact (C3_router_shape sampleBackends startState _).2.1 [JSVal.num 3] rfl (by decide)
      (fun s h => by cases h)
  · exact (C3_router_shape sampleBackends startState _).2.2 [JSVal.str "BAR"] "BAR" rfl rfl
      (by decide) (by decide) (by decide)

theorem mapErr_ok_inv (f : String → String) (x : Except String Bytes) (c : Bytes)
    (h : mapErr f x = Except.ok c) : x = Except.ok c := by
  cases x with
  | ok v => simpa [mapErr] using h
  | error e => simp [mapErr] at h

theorem string_length_eq_zero {s : String} (h : s.length = 0) : s = "" := by
  cases s with
  | mk cs =>
    cases cs with
    | nil => rfl
    | cons c t => simp [String.length] at h

theorem age_validate_ok (pw : String) (hpw : pw ≠ "") :
    Age.validatePassword pw = Except.ok () := by
  unfold Age.validatePassword
  rw [if_neg hpw, if_neg (fun h => hpw (string_length_eq_zero h))]

/-- C1: for each provider variant, whenever the backend satisfies its
round-trip contract, decrypting a successful encrypt output with the same
non-empty password recovers the payload exactly; and for the AEAD
provider the fixed-offset split (bytes 0..15 / 16..27 / rest) of the
encrypt output recovers exactly the salt, nonce and ciphertext that
encrypt concatenated. -/
theorem C1_roundtrip (B : Backends) (payload : Bytes) (pw : String) (hpw : pw ≠ "")
    (hAes : ∀ c, B.aes.encryptB payload pw = Except.ok c →
      B.aes.decryptB c pw = Except.ok payload)
    (hRage : ∀ c, B.rage.encP pw payload false = Except.ok c →
      B.rage.decP pw c = Except.ok payload)
    (hGcm : ∀ k iv m, B.engine.gcmDecrypt k iv (B.engine.gcmEncrypt k iv m) = Except.ok m) :
    (∀ c, JsAes.encrypt B.aes payload pw = Except.ok c →
      JsAes.decrypt B.aes c pw = Except.ok payload) ∧
    (∀ c, Age.encrypt B.rage payload pw = Except.ok c →
      Age.decrypt B.rage c pw = Except.ok payload) ∧
    (∀ c, WebCrypto.encrypt B.engine payload pw = Except.ok c →
      WebCrypto.decrypt B.engine c pw = Except.ok payload ∧
      c.take 16 = B.engine.randomBytes 16 ∧
      (c.drop 16).take 12 = B.engine.randomBytes 12 ∧
      c.drop 28 = B.engine.gcmEncrypt (B.engine.deriveKey pw (B.engine.randomBytes 16))
        (B.engine.randomBytes 12) payload) := by
  refine ⟨?_, ?_, ?_⟩
  · intro c h
    have he := mapErr_ok_inv _ _ _ h
    unfold JsAes.decrypt
    rw [hAes c he]
    rfl
  · intro c h
    unfold Age.encrypt at h
    rw [age_validate_ok pw hpw] at h
    have he := mapErr_ok_inv _ _ _ h
    unfold Age.decrypt
    rw [hRage c he]
    rfl
  · intro c h
    obtain ⟨-, hc⟩ := webcrypto_encrypt_ok _ _ _ _ h
    subst hc
    have hs := B.engine.rand_len 16
    have hi := B.engine.rand_len 12
    refine ⟨?_, container_take16 _ _ _ hs, container_mid _ _ _ hs hi,
      container_drop28 _ _ _ hs hi⟩
    unfold WebCrypto.decrypt
    rw [webcrypto_decrypt_container, hGcm]

/-- C1 witness: the sample backends realize all three round-trips at
payload [1,2,3] with password "pw", and the fixed-offset split of the
concrete AEAD container recovers its parts. -/
theorem C1_roundtrip_witness :
    (JsAes.encrypt sampleAes [1, 2, 3] "pw" = Except.ok [231, 1, 2, 3] ∧
     JsAes.decrypt sampleAes [231, 1, 2, 3] "pw" = Except.ok [1, 2, 3]) ∧
    (Age.encrypt sampleRage [1, 2, 3] "pw" = Except.ok [231, 1, 2, 3] ∧
     Age.decrypt sampleRage [231, 1, 2, 3] "pw" = Except.ok [1, 2, 3]) ∧
    (WebCrypto.encrypt sampleEngine [1, 2, 3] "pw" =
       Except.ok (List.replicate 16 7 ++ List.replicate 12 7 ++
         ([1, 2, 3] ++ List.replicate 16 87)) ∧
     WebCrypto.decrypt sampleEngine (List.replicate 16 7 ++ List.replicate 12 7 ++
         ([1, 2, 3] ++ List.replicate 16 87)) "pw" = Except.ok [1, 2, 3] ∧
     (List.replicate 16 7 ++ List.replicate 12 7 ++
         ([1, 2, 3] ++ List.replicate 16 87)).take 16 = List.replicate 16 7) := by
  have h := C1_roundtrip sampleBackends [1, 2, 3] "pw" (by decide)
    (sampleAes_roundtrip [1, 2, 3] "pw") (sampleRage_roundtrip [1, 2, 3] "pw")
    (fun k iv m => sampleEngine_gcm_roundtrip k iv m)
  have henc : WebCrypto.encrypt sampleEngine [1, 2, 3] "pw" =
      Except.ok (List.replicate 16 7 ++ List.replicate 12 7 ++
        ([1, 2, 3] ++ List.replicate 16 87)) := by rfl
  have hw := h.2.2 (List.replicate 16 7 ++ List.replicate 12 7 ++
    ([1, 2, 3] ++ List.replicate 16 87)) henc
  have heA : JsAes.encrypt sampleAes [1, 2, 3] "pw" = Except.ok [231, 1, 2, 3] := by rfl
  have heR : Age.encrypt sampleRage [1, 2, 3] "pw" = Except.ok [231, 1, 2, 3] := by rfl
  exact ⟨⟨heA, h.1 [231, 1, 2, 3] heA⟩, ⟨heR, h.2.1 [231, 1, 2, 3] heR⟩,
    ⟨henc, hw.1, hw.2.1⟩⟩

/-- C5: for each provider variant, when the backend reports its
wrong-password signal on decrypting with a different password (keyed-hash
mismatch for legacy, AES-GCM `OperationError` for the AEAD engine, a
backend decryption failure for age), decrypting a successful encrypt
output with the wrong password fails — never yielding any plaintext —
and the failure is normalized to code WRONG_PASSWORD; for the AEAD
provider the tag-verification `OperationError` is rethrown distinctly as
"Wrong password or corrupted data" before normalization. -/
theorem C5_wrong_password (B : Backends) (payload : Bytes) (pw pw2 : String)
    (hne : pw2 ≠ pw) (mAes mRage : String)
    (hAesFail : ∀ c, B.aes.encryptB payload pw = Except.ok c →
      B.aes.decryptB c pw2 = Except.error mAes)
    (hAesKw : lowerIncludes mAes "wrong password" = true ∨
      lowerIncludes mAes "bad hmac" = true)
    (hRageFail : ∀ c, B.rage.encP pw payload false = Except.ok c →
      B.rage.decP pw2 c = Except.error mRage)
    (hRageKw : lowerIncludes mRage "wrong password" = true ∨
      lowerIncludes mRage "incorrect passphrase" = true ∨
      lowerIncludes mRage "decryption failed" = true ∨
      lowerIncludes mRage "failed to decrypt" = true)
    (hAuth : ∀ iv m, B.engine.gcmDecrypt (B.engine.deriveKey pw2 (B.engine.randomBytes 16)) iv
      (B.engine.gcmEncrypt (B.engine.deriveKey pw (B.engine.randomBytes 16)) iv m) =
      Except.error GcmFailure.operationError) :
    (∀ c, JsAes.encrypt B.aes payload pw = Except.ok c →
      JsAes.decrypt B.aes c pw2 = Except.error (enhance "decrypt" mAes) ∧
      (JsAes.normalizeError B.aes
        (RawErr.err (some (enhance "decrypt" mAes)))).code = ErrorCode.WRONG_PASSWORD) ∧
    (∀ c, Age.encrypt B.rage payload pw = Except.ok c →
      Age.decrypt B.rage c pw2 = Except.error (enhance "decrypt" mRage) ∧
      (Age.normalizeError
        (RawErr.err (some (enhance "decrypt" mRage)))).code = ErrorCode.WRONG_PASSWORD) ∧
    (∀ c, WebCrypto.encrypt B.engine payload pw = Except.ok c →
      WebCrypto.decrypt B.engine c pw2 =
        Except.error "decrypt failed: Wrong password or corrupted data" ∧
      (WebCrypto.normalizeError (RawErr.err
        (some "decrypt failed: Wrong password or corrupted data"))).code =
        ErrorCode.WRONG_PASSWORD) := by
  refine ⟨?_, ?_, ?_⟩
  · intro c h
    have he := mapErr_ok_inv _ _ _ h
    constructor
    · unfold JsAes.decrypt
      rw [hAesFail c he]
      rfl
    · have hkw : (lowerIncludes (enhance "decrypt" mAes) "wrong password" ||
          lowerIncludes (enhance "decrypt" mAes) "bad hmac") = true := by
        rcases hAesKw with hk | hk <;> rw [lowerIncludes_enhance _ _ _ hk] <;> simp
      unfold JsAes.normalizeError
      dsimp only
      rw [jsErrMessage_err_enhance, if_pos hkw]
  · intro c h
    unfold Age.encrypt at h
    cases hv : Age.validatePassword pw with
    | error e => rw [hv] at h; cases h
    | ok u =>
      rw [hv] at h
      have he := mapErr_ok_inv _ _ _ h
      constructor
      · unfold Age.decrypt
        rw [hRageFail c he]
        rfl
      · have hkw : (lowerIncludes (enhance "decrypt" mRage) "wrong password" ||
            lowerIncludes (enhance "decrypt" mRage) "incorrect passphrase" ||
            lowerIncludes (enhance "decrypt" mRage) "decryption failed" ||
            lowerIncludes (enhance "decrypt" mRage) "failed to decrypt") = true := by
          rcases hRageKw with hk | hk | hk | hk <;> rw [lowerIncludes_enhance _ _ _ hk] <;> simp
        unfold Age.normalizeError
        dsimp only
        rw [jsErrMessage_err_enhance, if_pos hkw]
  · intro c h
    obtain ⟨-, hc⟩ := webcrypto_encrypt_ok _ _ _ _ h
    subst hc
    constructor
    · unfold WebCrypto.decrypt
      rw [webcrypto_decrypt_container, hAuth]
      rfl
    · decide

/-- C5 witness: with the sample backends, encrypting [1,2,3] under
"pw123" and decrypting under "wrong" fails in every variant and each
provider's normalizeError maps the failure to WRONG_PASSWORD. -/
theorem C5_wrong_password_witness :
    JsAes.decrypt sampleAes [381, 1, 2, 3] "wrong" =
      Except.error "decrypt failed: wrong password (bad hmac)" ∧
    (JsAes.normalizeError sampleAes (RawErr.err
      (some "decrypt failed: wrong password (bad hmac)"))).code = ErrorCode.WRONG_PASSWORD ∧
    Age.decrypt sampleRage [381, 1, 2, 3] "wrong" =
      Except.error "decrypt failed: decryption failed" ∧
    (Age.normalizeError (RawErr.err
      (some "decrypt failed: decryption failed"))).code = ErrorCode.WRONG_PASSWORD ∧
    WebCrypto.decrypt sampleEngine (List.replicate 16 7 ++ List.replicate 12 7 ++
        ([1, 2, 3] ++ List.replicate 16 237)) "wrong" =
      Except.error "decrypt failed: Wrong password or corrupted data" ∧
    (WebCrypto.normalizeError (RawErr.err
      (some "decrypt failed: Wrong password or corrupted data"))).code =
      ErrorCode.WRONG_PASSWORD := by
  have h := C5_wrong_password sampleBackends [1, 2, 3] "pw123" "wrong" (by decide)
    "wrong password (bad hmac)" "decryption failed"
    (sampleAes_wrongpw [1, 2, 3] "pw123" "wrong" (by decide)) (Or.inl (by decide))
    (sampleRage_wrongpw [1, 2, 3] "pw123" "wrong" (by decide))
    (Or.inr (Or.inr (Or.inl (by decide))))
    (sampleEngine_gcm_auth (sampleEngine.deriveKey "pw123" (sampleEngine.randomBytes 16))
      (sampleEngine.deriveKey "wrong" (sampleEngine.randomBytes 16)) (by decide))
  have hA := h.1 [381, 1, 2, 3] (by rfl)
  have hR := h.2.1 [381, 1, 2, 3] (by rfl)
  have hW := h.2.2 (List.replicate 16 7 ++ List.replicate 12 7 ++
    ([1, 2, 3] ++ List.replicate 16 237)) (by rfl)
  exact ⟨hA.1, hA.2, hR.1, hR.2, hW.1, hW.2⟩

theorem tooLongMsg_ne (n : Nat) : tooLongMsg n ≠ "" := by
  unfold tooLongMsg
  apply append_ne_empty_left
  apply append_ne_empty_left
  decide

theorem JsAes_normalize_spec (b : AesCryptBackend) (raw : RawErr) :
    (JsAes.normalizeError b raw).code ∈
      [ErrorCode.WRONG_PASSWORD, ErrorCode.PASSWORD_REQUIRED, ErrorCode.PASSWORD_TOO_LONG,
       ErrorCode.INVALID_FORMAT, ErrorCode.CORRUPTED_DATA, ErrorCode.ENCRYPTION_FAILED,
       ErrorCode.DECRYPTION_FAILED, ErrorCode.BACKEND_UNAVAILABLE, ErrorCode.UNKNOWN_ERROR] ∧
    (JsAes.normalizeError b raw).message = jsErrMessage raw ∧
    (JsAes.normalizeError b raw).userMessage ≠ "" ∧
    (JsAes.recognized (jsErrMessage raw) = false →
      (JsAes.normalizeError b raw).code = ErrorCode.UNKNOWN_ERROR ∧
      (JsAes.normalizeError b raw).userMessage = "❌ An unexpected error occurred") := by
  refine ⟨?_, ?_, ?_, ?_⟩
  · unfold JsAes.normalizeError
    dsimp only
    repeat' split
    all_goals simp
  · unfold JsAes.normalizeError
    dsimp only
    repeat' split
    all_goals rfl
  · unfold JsAes.normalizeError
    dsimp only
    repeat' split
    all_goals first
      | exact tooLongMsg_ne _
      | simp
  · intro hrec
    unfold JsAes.recognized at hrec
    simp only [Bool.or_eq_false_iff] at hrec
    obtain ⟨⟨⟨⟨⟨⟨h1, h2⟩, h3⟩, h4⟩, h5⟩, h6⟩, h7⟩ := hrec
    simp [JsAes.normalizeError, h1, h2, h3, h4, h5, h6, h7]

theorem WebCrypto_normalize_spec (raw : RawErr) :
    (WebCrypto.normalizeError raw).code ∈
      [ErrorCode.WRONG_PASSWORD, ErrorCode.PASSWORD_REQUIRED, ErrorCode.PASSWORD_TOO_LONG,
       ErrorCode.INVALID_FORMAT, ErrorCode.CORRUPTED_DATA, ErrorCode.ENCRYPTION_FAILED,
       ErrorCode.DECRYPTION_FAILED, ErrorCode.BACKEND_UNAVAILABLE, ErrorCode.UNKNOWN_ERROR] ∧
    (WebCrypto.normalizeError raw).message = jsErrMessage raw ∧
    (WebCrypto.normalizeError raw).userMessage ≠ "" ∧
    (WebCrypto.recognized (jsErrMessage raw) = false →
      (WebCrypto.normalizeError raw).code = ErrorCode.UNKNOWN_ERROR ∧
      (WebCrypto.normalizeError raw).userMessage = "❌ An unexpected error occurred") := by
  refine ⟨?_, ?_, ?_, ?_⟩
  · unfold WebCrypto.normalizeError
    dsimp only
    repeat' split
    all_goals simp
  · unfold WebCrypto.normalizeError
    dsimp only
    repeat' split
    all_goals rfl
  · unfold WebCrypto.normalizeError
    dsimp only
    repeat' split
    all_goals first
      | exact tooLongMsg_ne _
      | simp
  · intro hrec
    unfold WebCrypto.recognized at hrec
    simp only [Bool.or_eq_false_iff] at hrec
    obtain ⟨⟨⟨⟨⟨⟨⟨h1, h2⟩, h3⟩, h4⟩, h5⟩, h6⟩, h7⟩, h8⟩ := hrec
    simp [WebCrypto.normalizeError, h1, h2, h3, h4, h5, h6, h7, h8]

theorem Age_normalize_spec (raw : RawErr) :
    (Age.normalizeError raw).code ∈
      [ErrorCode.WRONG_PASSWORD, ErrorCode.PASSWORD_REQUIRED, ErrorCode.PASSWORD_TOO_LONG,
       ErrorCode.INVALID_FORMAT, ErrorCode.CORRUPTED_DATA, ErrorCode.ENCRYPTION_FAILED,
       ErrorCode.DECRYPTION_FAILED, ErrorCode.BACKEND_UNAVAILABLE, ErrorCode.UNKNOWN_ERROR] ∧
    (Age.normalizeError raw).message = jsErrMessage raw ∧
    (Age.normalizeError raw).userMessage ≠ "" ∧
    (Age.recognized (jsErrMessage raw) = false →
      (Age.normalizeError raw).code = ErrorCode.UNKNOWN_ERROR ∧
      (Age.normalizeError raw).userMessage = "❌ An unexpected error occurred") := by
  refine ⟨?_, ?_, ?_, ?_⟩
  · unfold Age.normalizeError
    dsimp only
    repeat' split
    all_goals simp
  · unfold Age.normalizeError
    dsimp only
    repeat' split
    all_goals rfl
  · unfold Age.normalizeError
    dsimp only
    repeat' split
    all_goals simp
  · intro hrec
    unfold Age.recognized at hrec
    simp only [Bool.or_eq_false_iff] at hrec
    obtain ⟨⟨⟨⟨⟨⟨⟨⟨⟨⟨h1, h2⟩, h3⟩, h4⟩, h5⟩, h6⟩, h7⟩, h8⟩, h9⟩, h10⟩, h11⟩ := hrec
    simp [Age.normalizeError, h1, h2, h3, h4, h5, h6, h7, h8, h9, h10, h11]

/-- C10: every provider's normalizeError is total on raw errors (Error
objects, plain strings, null/undefined): it always returns a record
whose code is in the ErrorCode taxonomy, whose message is the extracted
diagnostic (with a missing/empty message replaced by "Unknown error"),
and whose userMessage is a non-empty display string; raw errors matching
none of the variant's keywords yield UNKNOWN_ERROR with the generic
display message. -/
theorem C10_normalize_total (B : Backends) (v : Provider) (raw : RawErr) :
    (Provider.normErr B v raw).code ∈
      [ErrorCode.WRONG_PASSWORD, ErrorCode.PASSWORD_REQUIRED, ErrorCode.PASSWORD_TOO_LONG,
       ErrorCode.INVALID_FORMAT, ErrorCode.CORRUPTED_DATA, ErrorCode.ENCRYPTION_FAILED,
       ErrorCode.DECRYPTION_FAILED, ErrorCode.BACKEND_UNAVAILABLE, ErrorCode.UNKNOWN_ERROR] ∧
    (Provider.normErr B v raw).message = jsErrMessage raw ∧
    (Provider.normErr B v raw).userMessage ≠ "" ∧
    jsErrMessage RawErr.null = "Unknown error" ∧
    jsErrMessage RawErr.undef = "Unknown error" ∧
    jsErrMessage (RawErr.err none) = "Unknown error" ∧
    (Provider.recognized v (jsErrMessage raw) = false →
      (Provider.normErr B v raw).code = ErrorCode.UNKNOWN_ERROR ∧
      (Provider.normErr B v raw).userMessage = "❌ An unexpected error occurred") := by
  cases v with
  | jsAesCrypt =>
    obtain ⟨ha, hb, hc, hd⟩ := JsAes_normalize_spec B.aes raw
    exact ⟨ha, hb, hc, rfl, rfl, rfl, hd⟩
  | webCrypto =>
    obtain ⟨ha, hb, hc, hd⟩ := WebCrypto_normalize_spec raw
    exact ⟨ha, hb, hc, rfl, rfl, rfl, hd⟩
  | age =>
    obtain ⟨ha, hb, hc, hd⟩ := Age_normalize_spec raw
    exact ⟨ha, hb, hc, rfl, rfl, rfl, hd⟩

/-- C10 witness: the legacy normalizer at the unrecognized raw error
"boom" — total, in-taxonomy, non-empty display, UNKNOWN_ERROR fallback. -/
theorem C10_normalize_total_witness :
    (Provider.normErr sampleBackends Provider.jsAesCrypt (RawErr.str "boom")).code ∈
      [ErrorCode.WRONG_PASSWORD, ErrorCode.PASSWORD_REQUIRED, ErrorCode.PASSWORD_TOO_LONG,
       ErrorCode.INVALID_FORMAT, ErrorCode.CORRUPTED_DATA, ErrorCode.ENCRYPTION_FAILED,
       ErrorCode.DECRYPTION_FAILED, ErrorCode.BACKEND_UNAVAILABLE, ErrorCode.UNKNOWN_ERROR] ∧
    (Provider.normErr sampleBackends Provider.jsAesCrypt (RawErr.str "boom")).message = "boom" ∧
    (Provider.normErr sampleBackends Provider.jsAesCrypt (RawErr.str "boom")).userMessage ≠ "" ∧
    jsErrMessage RawErr.null = "Unknown error" ∧
    (Provider.normErr sampleBackends Provider.jsAesCrypt (RawErr.str "boom")).code =
      ErrorCode.UNKNOWN_ERROR ∧
    (Provider.normErr sampleBackends Provider.jsAesCrypt (RawErr.str "boom")).userMessage =
      "❌ An unexpected error occurred" := by
  have h := C10_normalize_total sampleBackends Provider.jsAesCrypt (RawErr.str "boom")
  have hu := h.2.2.2.2.2.2 (by decide)
  exact ⟨h.1, h.2.1, h.2.2.1, h.2.2.2.1, hu.1, hu.2⟩
